import Mathlib

/-!
VectorAdditionOpenCL: device selection and dispatch sizing of `main`.

A shallow embedding of `src/VectorAdditionOpenCL/main.c`.  The program is one
C function, `main`.  Its calls into the OpenCL runtime are modelled by the
answers the runtime gives (status codes and reported values), collected in
`Runtime`; `main` is then a pure function from those answers to the way the
run ends.

Machine types: `cl_int` status codes are integers (`Int`, with the two's
complement bitwise operations `Int.lor` and `Int.land`), `cl_uint` and
`unsigned int` are naturals reduced modulo `2 ^ 32`, `size_t` is a natural
reduced modulo `2 ^ 64`.  The loop counter `curDevice` is a natural: the
device array is assumed shorter than `2 ^ 31` entries, so the C `int` never
overflows.
-/

namespace VectorAdditionOpenCL

/-! ## Data model -/

/-- The status value `CL_SUCCESS` of the OpenCL headers. -/
def CL_SUCCESS : Int := 0

/-- The constant `NUM_OF_VALUES` (main.c line 28). -/
def NUM_OF_VALUES : Nat := 100000

/-- One entry of `clDevices` together with what the runtime answers to the two
`clGetDeviceInfo` calls of the selection loop (main.c lines 72-73): the status
and the value written for `CL_DEVICE_MAX_COMPUTE_UNITS` and for
`CL_DEVICE_MAX_CLOCK_FREQUENCY`.  `handle` stands for the `cl_device_id`. -/
structure Device where
  handle : Nat
  unitsStatus : Int
  computeUnits : Nat
  clockStatus : Int
  clockFrequency : Nat
deriving DecidableEq, Repr

/-- The text printed before `return EXIT_FAILURE`, named after the failing call. -/
inductive Message where
  | clCreateContextFromType
  | clGetContextInfoSize
  | clGetContextInfoFill
  | clGetDeviceInfo
  | clCommandQueues
  | clCreateProgramWithSource
  | clBuildProgram
  | clCreateKernel
  | clCreateBuffer
  | clSetKernelArg
  | clGetKernelWorkGroupInfo
  | clEnqueueNDRangeKernel
  | clEnqueueReadBuffer
deriving DecidableEq, Repr

/-- How a piece of `main` ends: `exitFailure m` is `printf(m); return EXIT_FAILURE;`,
`undefined` is an operation whose behaviour C leaves undefined (the only one
modelled is an unsigned division by zero), `ok a` is normal completion. -/
inductive Run (α : Type) where
  | exitFailure (message : Message) : Run α
  | undefined : Run α
  | ok (a : α) : Run α
deriving DecidableEq, Repr

/-- The four locals the selection loop maintains (main.c lines 63-66).
`gpuId` is `none` when it holds the value read from `clDevices[0]` of an array
without entries. -/
structure Selection where
  maxComputeUnits : Nat
  maxClockFrequency : Nat
  gpuId : Option Nat
  id : Nat
deriving DecidableEq, Repr

/-! ## Device selection (main.c lines 63-88) -/

/-- Multiplication of two `cl_uint` values: the product modulo `2 ^ 32`. -/
def mulUInt32 (a b : Nat) : Nat := (a * b) % 2 ^ 32

/-- The score the loop compares, `computeUnits * clockFrequency` in `cl_uint`
arithmetic (right operand of the comparison at main.c line 81). -/
def score (d : Device) : Nat := mulUInt32 d.computeUnits d.clockFrequency

/-- The left operand of the comparison at line 81: `maxComputeUnits * maxClockFrequency`. -/
def bestScore (s : Selection) : Nat := mulUInt32 s.maxComputeUnits s.maxClockFrequency

/-- The `for` loop of main.c lines 68-88, run over the devices not yet visited,
with `curDevice` the index of the first of them. -/
def deviceLoop : List Device → Nat → Selection → Run Selection
  | [], _, s => Run.ok s
  | d :: rest, curDevice, s =>
    -- clerr = clGetDeviceInfo(..); clerr |= clGetDeviceInfo(..);
    if Int.lor d.unitsStatus d.clockStatus ≠ CL_SUCCESS then
      Run.exitFailure Message.clGetDeviceInfo
    else if bestScore s < score d then
      deviceLoop rest (curDevice + 1)
        { maxComputeUnits := d.computeUnits, maxClockFrequency := d.clockFrequency,
          gpuId := some d.handle, id := curDevice }
    else
      deviceLoop rest (curDevice + 1) s

/-- The locals as initialised at main.c lines 63-66: both maxima 0,
`gpuId = clDevices[0]`, `id = 0`. -/
def initialSelection (clDevices : List Device) : Selection :=
  { maxComputeUnits := 0, maxClockFrequency := 0,
    gpuId := clDevices.head?.map Device.handle, id := 0 }

/-- Device selection as `main` performs it: lines 63-88, with
`numOfDevices = clDevices.length`. -/
def selectDevice (clDevices : List Device) : Run Selection :=
  deviceLoop clDevices 0 (initialSelection clDevices)

/-! ## Binding the kernel arguments (main.c lines 151-161) -/

/-- The value of `clerr` tested at line 157, from the statuses of the four
`clSetKernelArg` calls: `clerr = s0; clerr &= s1; clerr &= s2; clerr &= s3;`. -/
def setKernelArgs (s0 s1 s2 s3 : Int) : Int :=
  Int.land (Int.land (Int.land s0 s1) s2) s3

/-! ## Dispatch sizing (main.c lines 163-175) -/

/-- Unsigned division of C: undefined for a zero divisor. -/
def udiv (a b : Nat) : Option Nat :=
  if b = 0 then none else some (a / b)

/-- The expression of main.c line 175,
`(numOfValues/localWorkGroupSize + 1)*localWorkGroupSize`, evaluated in
`size_t` (64 bit) arithmetic; `none` when the division is by zero. -/
def globalWorkItems (numOfValues localWorkGroupSize : Nat) : Option Nat :=
  (udiv numOfValues localWorkGroupSize).map
    fun q => ((q + 1) % 2 ^ 64 * localWorkGroupSize) % 2 ^ 64

/-- Lines 163-175: the status check on `clGetKernelWorkGroupInfo`, then the
computation of `globalWorkItems`. -/
def planDispatch (status : Int) (numOfValues localWorkGroupSize : Nat) : Run Nat :=
  if status ≠ CL_SUCCESS then Run.exitFailure Message.clGetKernelWorkGroupInfo
  else match globalWorkItems numOfValues localWorkGroupSize with
    | none => Run.undefined
    | some g => Run.ok g

/-! ## The whole of `main` -/

/-- The answers of the OpenCL runtime to the calls of `main`, in call order.
The status of the `CL_CONTEXT_NUM_DEVICES` query (line 61) is absent because
`main` never tests it; `clDevices` has `numOfDevices` entries. -/
structure Runtime where
  createContext : Int
  devicesSize : Int
  devicesFill : Int
  clDevices : List Device
  createCommandQueue : Int
  createProgram : Int
  buildProgram : Int
  createKernel : Int
  bufferA : Bool
  bufferB : Bool
  bufferC : Bool
  setArg0 : Int
  setArg1 : Int
  setArg2 : Int
  setArg3 : Int
  workGroupInfo : Int
  localWorkGroupSize : Nat
  enqueueNDRange : Int
  readBuffer : Int
deriving DecidableEq, Repr

/-- What a run that reaches `return 0` has launched. -/
structure Launch where
  id : Nat
  gpuId : Option Nat
  localWorkGroupSize : Nat
  globalWorkItems : Nat
deriving DecidableEq, Repr

/-- The control flow of `main` after device selection (lines 101-217). -/
def mainAfterSelection (rt : Runtime) (sel : Selection) : Run Launch :=
  if rt.createCommandQueue ≠ CL_SUCCESS then Run.exitFailure Message.clCommandQueues
  else if rt.createProgram ≠ CL_SUCCESS then Run.exitFailure Message.clCreateProgramWithSource
  else if rt.buildProgram ≠ CL_SUCCESS then Run.exitFailure Message.clBuildProgram
  else if rt.createKernel ≠ CL_SUCCESS then Run.exitFailure Message.clCreateKernel
  else if !rt.bufferA || !rt.bufferB || !rt.bufferC then Run.exitFailure Message.clCreateBuffer
  else if setKernelArgs rt.setArg0 rt.setArg1 rt.setArg2 rt.setArg3 ≠ CL_SUCCESS then
    Run.exitFailure Message.clSetKernelArg
  else match planDispatch rt.workGroupInfo NUM_OF_VALUES rt.localWorkGroupSize with
    | Run.exitFailure m => Run.exitFailure m
    | Run.undefined => Run.undefined
    | Run.ok g =>
      if rt.enqueueNDRange ≠ CL_SUCCESS then Run.exitFailure Message.clEnqueueNDRangeKernel
      else if rt.readBuffer ≠ CL_SUCCESS then Run.exitFailure Message.clEnqueueReadBuffer
      else Run.ok { id := sel.id, gpuId := sel.gpuId,
                    localWorkGroupSize := rt.localWorkGroupSize, globalWorkItems := g }

/-- The control flow of `main` (lines 30-217); `Run.ok` is `return 0`. -/
def main (rt : Runtime) : Run Launch :=
  if rt.createContext ≠ CL_SUCCESS then Run.exitFailure Message.clCreateContextFromType
  else if rt.devicesSize ≠ CL_SUCCESS then Run.exitFailure Message.clGetContextInfoSize
  else if rt.devicesFill ≠ CL_SUCCESS then Run.exitFailure Message.clGetContextInfoFill
  else match selectDevice rt.clDevices with
    | Run.exitFailure m => Run.exitFailure m
    | Run.undefined => Run.undefined
    | Run.ok sel => mainAfterSelection rt sel

/-- The ceiling-division formula of the specification,
`((elementCount + localSize - 1) / localSize) * localSize`, over the naturals. -/
def ceilGlobalSize (elementCount localSize : Nat) : Nat :=
  ((elementCount + localSize - 1) / localSize) * localSize

/-! ## Concrete inputs -/

/-- Three devices with compute units and clock frequency (2,1000), (4,600),
(1,3000); every query succeeds. -/
def threeDevices : List Device :=
  [ { handle := 100, unitsStatus := 0, computeUnits := 2, clockStatus := 0, clockFrequency := 1000 },
    { handle := 101, unitsStatus := 0, computeUnits := 4, clockStatus := 0, clockFrequency := 600 },
    { handle := 102, unitsStatus := 0, computeUnits := 1, clockStatus := 0, clockFrequency := 3000 } ]

/-- Two devices of equal score, (2,1000) twice. -/
def tiedDevices : List Device :=
  [ { handle := 100, unitsStatus := 0, computeUnits := 2, clockStatus := 0, clockFrequency := 1000 },
    { handle := 101, unitsStatus := 0, computeUnits := 2, clockStatus := 0, clockFrequency := 1000 } ]

/-- Two devices, (65536,65536) and (1,1): the exact product of the first is
`2 ^ 32`, which is 0 in `cl_uint` arithmetic. -/
def overflowDevices : List Device :=
  [ { handle := 100, unitsStatus := 0, computeUnits := 65536, clockStatus := 0,
      clockFrequency := 65536 },
    { handle := 101, unitsStatus := 0, computeUnits := 1, clockStatus := 0, clockFrequency := 1 } ]

/-- One device whose clock-frequency query answers `CL_INVALID_VALUE` (-30). -/
def failingDevices : List Device :=
  [ { handle := 100, unitsStatus := 0, computeUnits := 2, clockStatus := -30,
      clockFrequency := 1000 } ]

/-- A runtime in which every call succeeds, with `threeDevices` and a
work-group size of 256. -/
def okRuntime : Runtime :=
  { createContext := 0, devicesSize := 0, devicesFill := 0, clDevices := threeDevices,
    createCommandQueue := 0, createProgram := 0, buildProgram := 0, createKernel := 0,
    bufferA := true, bufferB := true, bufferC := true,
    setArg0 := 0, setArg1 := 0, setArg2 := 0, setArg3 := 0,
    workGroupInfo := 0, localWorkGroupSize := 256, enqueueNDRange := 0, readBuffer := 0 }

/-- As `okRuntime`, but the work-group query succeeds and reports size 0. -/
def zeroGranularityRuntime : Runtime := { okRuntime with localWorkGroupSize := 0 }

/-- As `okRuntime`, but the context holds no device. -/
def noDeviceRuntime : Runtime := { okRuntime with clDevices := [] }

/-- As `okRuntime`, but the first `clSetKernelArg` answers
`CL_INVALID_MEM_OBJECT` (-38). -/
def maskedArgRuntime : Runtime := { okRuntime with setArg0 := -38 }

/-! ## Bitwise operations on status codes -/

theorem nat_lor_eq_zero (a b : Nat) : a ||| b = 0 ↔ a = 0 ∧ b = 0 := by
  constructor
  · intro h
    have hbit : ∀ i, (a.testBit i || b.testBit i) = false := fun i => by
      rw [← Nat.testBit_or, h, Nat.zero_testBit]
    constructor
    · exact Nat.eq_of_testBit_eq fun i => by
        have := hbit i
        rw [Bool.or_eq_false_iff] at this
        rw [this.1, Nat.zero_testBit]
    · exact Nat.eq_of_testBit_eq fun i => by
        have := hbit i
        rw [Bool.or_eq_false_iff] at this
        rw [this.2, Nat.zero_testBit]
  · rintro ⟨rfl, rfl⟩
    rfl

theorem int_lor_eq_zero (a b : Int) : Int.lor a b = 0 ↔ a = 0 ∧ b = 0 := by
  cases a <;> cases b <;> simp [Int.lor, nat_lor_eq_zero]

theorem int_land_zero (a : Int) : Int.land a 0 = 0 := by
  cases a with
  | ofNat m => show ((m &&& 0 : Nat) : Int) = 0; simp
  | negSucc m => show ((Nat.ldiff 0 m : Nat) : Int) = 0; simp [Nat.ldiff]

theorem int_zero_land (a : Int) : Int.land 0 a = 0 := by
  cases a with
  | ofNat m => show ((0 &&& m : Nat) : Int) = 0; simp
  | negSucc m => show ((Nat.ldiff 0 m : Nat) : Int) = 0; simp [Nat.ldiff]



/-! ## Dispatch sizing: lemmas -/

theorem succ_div_mul_lt (n l : Nat) (hn : n < 2 ^ 32) (hl : l < 2 ^ 64) (h0 : 0 < l) :
    (n / l + 1) * l < 2 ^ 64 := by
  have hle : n / l * l ≤ n := Nat.div_mul_le_self n l
  rcases Nat.lt_or_ge n l with h | h
  · rw [Nat.div_eq_of_lt h]; simpa using hl
  · have : (n / l + 1) * l = n / l * l + l := by ring
    omega

theorem globalWorkItems_eq (n l : Nat) (hn : n < 2 ^ 32) (hl : l < 2 ^ 64) (h0 : 0 < l) :
    globalWorkItems n l = some ((n / l + 1) * l) := by
  have hq : n / l + 1 < 2 ^ 64 := by
    have : n / l ≤ n := Nat.div_le_self n l
    omega
  have hg := succ_div_mul_lt n l hn hl h0
  unfold globalWorkItems udiv
  rw [if_neg (Nat.pos_iff_ne_zero.mp h0), Option.map_some', Nat.mod_eq_of_lt hq,
    Nat.mod_eq_of_lt hg]

theorem lt_succ_div_mul (n l : Nat) (h0 : 0 < l) : n < (n / l + 1) * l := by
  have := Nat.lt_mul_div_succ n h0
  rwa [Nat.mul_comm] at this

theorem succ_div_mul_le (n l : Nat) : (n / l + 1) * l ≤ n + l := by
  have hle : n / l * l ≤ n := Nat.div_mul_le_self n l
  have : (n / l + 1) * l = n / l * l + l := by ring
  omega

theorem succ_div_mul_least (n l m : Nat) (h0 : 0 < l) (hm : l ∣ m) (hnm : n < m) :
    (n / l + 1) * l ≤ m := by
  obtain ⟨k, rfl⟩ := hm
  have hq : n / l < k := (Nat.div_lt_iff_lt_mul h0).mpr (by rwa [Nat.mul_comm] at hnm)
  calc (n / l + 1) * l ≤ k * l := Nat.mul_le_mul_right l hq
    _ = l * k := Nat.mul_comm k l

theorem succ_div_mul_of_dvd (n l : Nat) (h : l ∣ n) : (n / l + 1) * l = n + l := by
  rw [Nat.add_mul, Nat.div_mul_cancel h, Nat.one_mul]

theorem ceilGlobalSize_of_dvd (n l : Nat) (h0 : 0 < l) (h : l ∣ n) :
    ceilGlobalSize n l = n := by
  obtain ⟨k, rfl⟩ := h
  unfold ceilGlobalSize
  have : (l * k + l - 1) / l = k := by
    rw [Nat.add_sub_assoc h0, Nat.mul_add_div h0,
      Nat.div_eq_of_lt (show l - 1 < l by omega), Nat.add_zero]
  rw [this, Nat.mul_comm]

theorem ceilGlobalSize_of_not_dvd (n l : Nat) (h0 : 0 < l) (h : ¬ l ∣ n) :
    ceilGlobalSize n l = (n / l + 1) * l := by
  unfold ceilGlobalSize
  have hr : 0 < n % l := Nat.pos_of_ne_zero fun hz => h (Nat.dvd_of_mod_eq_zero hz)
  have hlt : n % l < l := Nat.mod_lt n h0
  have hsplit : n + l - 1 = l * (n / l + 1) + (n % l - 1) := by
    have hdm := Nat.div_add_mod n l
    rw [Nat.mul_add, Nat.mul_one]
    generalize l * (n / l) = p at hdm ⊢
    omega
  have : (n + l - 1) / l = n / l + 1 := by
    rw [hsplit, Nat.mul_add_div h0, Nat.div_eq_of_lt (show n % l - 1 < l by omega),
      Nat.add_zero]
  rw [this]

/-! ## Device selection: lemmas -/

theorem deviceLoop_cons_of_success (d : Device) (rest : List Device) (k : Nat) (s : Selection)
    (h1 : d.unitsStatus = CL_SUCCESS) (h2 : d.clockStatus = CL_SUCCESS) :
    deviceLoop (d :: rest) k s =
      if bestScore s < score d then
        deviceLoop rest (k + 1)
          { maxComputeUnits := d.computeUnits, maxClockFrequency := d.clockFrequency,
            gpuId := some d.handle, id := k }
      else deviceLoop rest (k + 1) s := by
  have h : Int.lor d.unitsStatus d.clockStatus = CL_SUCCESS := by
    rw [h1, h2]; exact (int_lor_eq_zero 0 0).mpr ⟨rfl, rfl⟩
  rw [deviceLoop, if_neg (not_not.mpr h)]

theorem deviceLoop_cons_of_failure (d : Device) (rest : List Device) (k : Nat) (s : Selection)
    (h : d.unitsStatus ≠ CL_SUCCESS ∨ d.clockStatus ≠ CL_SUCCESS) :
    deviceLoop (d :: rest) k s = Run.exitFailure Message.clGetDeviceInfo := by
  have hne : Int.lor d.unitsStatus d.clockStatus ≠ CL_SUCCESS := by
    intro h0
    have := (int_lor_eq_zero _ _).mp h0
    rcases h with h | h
    · exact h this.1
    · exact h this.2
  rw [deviceLoop, if_pos hne]

/-- The loop fails exactly when some device not yet visited has a failing query. -/
theorem deviceLoop_exitFailure_iff (ds : List Device) (k : Nat) (s : Selection) :
    deviceLoop ds k s = Run.exitFailure Message.clGetDeviceInfo ↔
      ∃ d ∈ ds, d.unitsStatus ≠ CL_SUCCESS ∨ d.clockStatus ≠ CL_SUCCESS := by
  induction ds generalizing k s with
  | nil => simp [deviceLoop]
  | cons d rest ih =>
    by_cases hd : d.unitsStatus ≠ CL_SUCCESS ∨ d.clockStatus ≠ CL_SUCCESS
    · rw [deviceLoop_cons_of_failure d rest k s hd]
      exact ⟨fun _ => ⟨d, List.mem_cons_self d rest, hd⟩, fun _ => rfl⟩
    · have h1 : d.unitsStatus = CL_SUCCESS := by
        by_contra h; exact hd (Or.inl h)
      have h2 : d.clockStatus = CL_SUCCESS := by
        by_contra h; exact hd (Or.inr h)
      rw [deviceLoop_cons_of_success d rest k s h1 h2]
      have hex : (∃ e ∈ d :: rest, e.unitsStatus ≠ CL_SUCCESS ∨ e.clockStatus ≠ CL_SUCCESS) ↔
          ∃ e ∈ rest, e.unitsStatus ≠ CL_SUCCESS ∨ e.clockStatus ≠ CL_SUCCESS := by
        constructor
        · rintro ⟨e, he, hbad⟩
          rcases List.mem_cons.mp he with rfl | he
          · exact absurd hbad hd
          · exact ⟨e, he, hbad⟩
        · rintro ⟨e, he, hbad⟩
          exact ⟨e, List.mem_cons_of_mem d he, hbad⟩
      rw [hex]
      split
      · exact ih _ _
      · exact ih _ _

/-- Invariant of the loop when no query fails: either no device improved on the
incoming best score and the locals are unchanged, or the locals describe the
first device of greatest score among those visited. -/
theorem deviceLoop_ok (ds : List Device)
    (hq : ∀ d ∈ ds, d.unitsStatus = CL_SUCCESS ∧ d.clockStatus = CL_SUCCESS)
    (k : Nat) (s : Selection) :
    ∃ r, deviceLoop ds k s = Run.ok r ∧
      ((r = s ∧ ∀ e ∈ ds, score e ≤ bestScore s) ∨
       (∃ i d, ds[i]? = some d ∧
          r = { maxComputeUnits := d.computeUnits, maxClockFrequency := d.clockFrequency,
                gpuId := some d.handle, id := k + i } ∧
          bestScore s < score d ∧
          (∀ j e, j < i → ds[j]? = some e → score e < score d) ∧
          (∀ e ∈ ds, score e ≤ score d))) := by
  induction ds generalizing k s with
  | nil => exact ⟨s, rfl, Or.inl ⟨rfl, fun e he => absurd he (List.not_mem_nil e)⟩⟩
  | cons d rest ih =>
    have hd := hq d (List.mem_cons_self d rest)
    have hrest : ∀ e ∈ rest, e.unitsStatus = CL_SUCCESS ∧ e.clockStatus = CL_SUCCESS :=
      fun e he => hq e (List.mem_cons_of_mem d he)
    rw [deviceLoop_cons_of_success d rest k s hd.1 hd.2]
    by_cases hlt : bestScore s < score d
    · rw [if_pos hlt]
      obtain ⟨r, hr, hcase⟩ := ih hrest (k + 1)
        { maxComputeUnits := d.computeUnits, maxClockFrequency := d.clockFrequency,
          gpuId := some d.handle, id := k }
      refine ⟨r, hr, Or.inr ?_⟩
      rcases hcase with ⟨hrs, hall⟩ | ⟨i, d2, hget, hrs, hbest, hfirst, hall⟩
      · refine ⟨0, d, by simp, by rw [hrs]; rfl, hlt, fun j e hj _ => absurd hj (Nat.not_lt_zero j), ?_⟩
        intro e he
        rcases List.mem_cons.mp he with rfl | he
        · exact Nat.le_refl _
        · exact hall e he
      · have hbest2 : score d < score d2 := hbest
        refine ⟨i + 1, d2, by simpa using hget, by rw [hrs, Nat.add_assoc, Nat.add_comm 1 i],
          Nat.lt_trans hlt hbest2, ?_, ?_⟩
        · intro j e hj hje
          cases j with
          | zero =>
            have : e = d := by simpa using hje.symm
            rw [this]; exact hbest2
          | succ j =>
            exact hfirst j e (Nat.lt_of_succ_lt_succ hj) (by simpa using hje)
        · intro e he
          rcases List.mem_cons.mp he with rfl | he
          · exact Nat.le_of_lt hbest2
          · exact hall e he
    · rw [if_neg hlt]
      obtain ⟨r, hr, hcase⟩ := ih hrest (k + 1) s
      refine ⟨r, hr, ?_⟩
      rcases hcase with ⟨hrs, hall⟩ | ⟨i, d2, hget, hrs, hbest, hfirst, hall⟩
      · refine Or.inl ⟨hrs, ?_⟩
        intro e he
        rcases List.mem_cons.mp he with rfl | he
        · exact Nat.le_of_not_lt hlt
        · exact hall e he
      · refine Or.inr ⟨i + 1, d2, by simpa using hget,
          by rw [hrs, Nat.add_assoc, Nat.add_comm 1 i], hbest, ?_, ?_⟩
        · intro j e hj hje
          cases j with
          | zero =>
            have : e = d := by simpa using hje.symm
            rw [this]; exact Nat.lt_of_le_of_lt (Nat.le_of_not_lt hlt) hbest
          | succ j =>
            exact hfirst j e (Nat.lt_of_succ_lt_succ hj) (by simpa using hje)
        · intro e he
          rcases List.mem_cons.mp he with rfl | he
          · exact Nat.le_of_lt (Nat.lt_of_le_of_lt (Nat.le_of_not_lt hlt) hbest)
          · exact hall e he

/-- What selection yields on a non-empty list whose queries all succeed: the
first device of greatest score, with its index and its handle. -/
theorem selectDevice_ok (devices : List Device) (hne : devices ≠ [])
    (hq : ∀ d ∈ devices, d.unitsStatus = CL_SUCCESS ∧ d.clockStatus = CL_SUCCESS) :
    ∃ r d, selectDevice devices = Run.ok r ∧ devices[r.id]? = some d ∧
      r.gpuId = some d.handle ∧
      (∀ e ∈ devices, score e ≤ score d) ∧
      (∀ j e, j < r.id → devices[j]? = some e → score e < score d) := by
  obtain ⟨r, hr, hcase⟩ := deviceLoop_ok devices hq 0 (initialSelection devices)
  rcases hcase with ⟨hrs, hall⟩ | ⟨i, d, hget, hrs, _, hfirst, hall⟩
  · cases devices with
    | nil => exact absurd rfl hne
    | cons d0 rest =>
      refine ⟨r, d0, hr, by rw [hrs]; simp [initialSelection], by rw [hrs]; rfl, ?_, ?_⟩
      · intro e he
        have h0 : score e ≤ 0 := hall e he
        exact Nat.le_trans h0 (Nat.zero_le _)
      · intro j e hj
        rw [hrs] at hj
        exact absurd hj (Nat.not_lt_zero j)
  · refine ⟨r, d, hr, by rw [hrs]; simpa using hget, by rw [hrs], hall, ?_⟩
    intro j e hj hje
    rw [hrs] at hj
    exact hfirst j e (by simpa using hj) hje

/-! ## Control flow of `main`: lemmas -/

theorem planDispatch_message (status : Int) (n l : Nat) (m : Message)
    (h : planDispatch status n l = Run.exitFailure m) :
    m = Message.clGetKernelWorkGroupInfo := by
  unfold planDispatch at h
  split_ifs at h
  · cases h; rfl
  · split at h <;> cases h

theorem mainAfterSelection_ne_deviceInfo (rt : Runtime) (sel : Selection) :
    mainAfterSelection rt sel ≠ Run.exitFailure Message.clGetDeviceInfo := by
  intro h
  cases hp : planDispatch rt.workGroupInfo NUM_OF_VALUES rt.localWorkGroupSize with
  | exitFailure m =>
    have hm := planDispatch_message _ _ _ m hp
    subst hm
    simp only [mainAfterSelection, hp] at h
    split_ifs at h <;> cases h
  | undefined =>
    simp only [mainAfterSelection, hp] at h
    split_ifs at h <;> cases h
  | ok g =>
    simp only [mainAfterSelection, hp] at h
    split_ifs at h <;> cases h

/-! ## Dispatch sizing: the claims -/

/-- C1. For every `numOfValues` (an `unsigned int`) and every non-zero
`localWorkGroupSize` (a `size_t`), line 175 computes a `globalWorkItems` that is
positive, a multiple of `localWorkGroupSize`, and at least `numOfValues`. -/
theorem globalWorkItems_postcondition (numOfValues localWorkGroupSize : Nat)
    (hn : numOfValues < 2 ^ 32) (hl : localWorkGroupSize < 2 ^ 64)
    (h0 : 0 < localWorkGroupSize) :
    ∃ g, globalWorkItems numOfValues localWorkGroupSize = some g ∧
      0 < g ∧ g % localWorkGroupSize = 0 ∧ numOfValues ≤ g := by
  refine ⟨_, globalWorkItems_eq numOfValues localWorkGroupSize hn hl h0, ?_, ?_, ?_⟩
  · exact Nat.mul_pos (Nat.succ_pos _) h0
  · exact Nat.mul_mod_left _ _
  · exact Nat.le_of_lt (lt_succ_div_mul numOfValues localWorkGroupSize h0)

/-- Witness for C1 at the specification example `plan(0, 256)`. -/
theorem globalWorkItems_postcondition_witness :
    (0 < 2 ^ 32 ∧ 256 < 2 ^ 64 ∧ 0 < 256) ∧
    ∃ g, globalWorkItems 0 256 = some g ∧ 0 < g ∧ g % 256 = 0 ∧ 0 ≤ g :=
  ⟨by decide, globalWorkItems_postcondition 0 256 (by decide) (by decide) (by decide)⟩

/-- The three scenarios of the specification, evaluated. -/
theorem globalWorkItems_scenarios :
    globalWorkItems 100000 256 = some 100096 ∧ globalWorkItems 256 256 = some 512 ∧
      globalWorkItems 0 256 = some 256 := by
  decide

/-- C2. The computed `globalWorkItems` is the smallest multiple of
`localWorkGroupSize` strictly greater than `numOfValues`: it lies in
`(numOfValues, numOfValues + localWorkGroupSize]`, is a multiple, is below every
other multiple above `numOfValues`, and is `numOfValues + localWorkGroupSize`
when the division is exact. -/
theorem globalWorkItems_next_multiple (numOfValues localWorkGroupSize : Nat)
    (hn : numOfValues < 2 ^ 32) (hl : localWorkGroupSize < 2 ^ 64)
    (h0 : 0 < localWorkGroupSize) :
    ∃ g, globalWorkItems numOfValues localWorkGroupSize = some g ∧
      numOfValues < g ∧ g ≤ numOfValues + localWorkGroupSize ∧ localWorkGroupSize ∣ g ∧
      (∀ m, localWorkGroupSize ∣ m → numOfValues < m → g ≤ m) ∧
      (localWorkGroupSize ∣ numOfValues → g = numOfValues + localWorkGroupSize) := by
  refine ⟨_, globalWorkItems_eq numOfValues localWorkGroupSize hn hl h0, ?_, ?_, ?_, ?_, ?_⟩
  · exact lt_succ_div_mul numOfValues localWorkGroupSize h0
  · exact succ_div_mul_le numOfValues localWorkGroupSize
  · exact Nat.dvd_mul_left _ _
  · exact fun m hm hnm => succ_div_mul_least numOfValues localWorkGroupSize m h0 hm hnm
  · exact succ_div_mul_of_dvd numOfValues localWorkGroupSize

/-- Witness for C2 at the exact-multiple example `plan(256, 256)`. -/
theorem globalWorkItems_next_multiple_witness :
    (256 < 2 ^ 32 ∧ 256 < 2 ^ 64 ∧ 0 < 256) ∧
    ∃ g, globalWorkItems 256 256 = some g ∧
      256 < g ∧ g ≤ 256 + 256 ∧ 256 ∣ g ∧
      (∀ m, 256 ∣ m → 256 < m → g ≤ m) ∧ (256 ∣ 256 → g = 256 + 256) :=
  ⟨by decide, globalWorkItems_next_multiple 256 256 (by decide) (by decide) (by decide)⟩

/-- C9. Against the ceiling-division formula of the specification: the computed
`globalWorkItems` equals `ceilGlobalSize` exactly when `localWorkGroupSize` does
not divide `numOfValues`, and is `ceilGlobalSize + localWorkGroupSize` when it
does. -/
theorem globalWorkItems_vs_ceiling (numOfValues localWorkGroupSize : Nat)
    (hn : numOfValues < 2 ^ 32) (hl : localWorkGroupSize < 2 ^ 64)
    (h0 : 0 < localWorkGroupSize) :
    ∃ g, globalWorkItems numOfValues localWorkGroupSize = some g ∧
      (g = ceilGlobalSize numOfValues localWorkGroupSize ↔
        ¬ localWorkGroupSize ∣ numOfValues) ∧
      (localWorkGroupSize ∣ numOfValues →
        g = ceilGlobalSize numOfValues localWorkGroupSize + localWorkGroupSize) := by
  refine ⟨_, globalWorkItems_eq numOfValues localWorkGroupSize hn hl h0, ?_, ?_⟩
  · constructor
    · intro heq hdvd
      rw [ceilGlobalSize_of_dvd numOfValues localWorkGroupSize h0 hdvd,
        succ_div_mul_of_dvd numOfValues localWorkGroupSize hdvd] at heq
      omega
    · intro hndvd
      exact (ceilGlobalSize_of_not_dvd numOfValues localWorkGroupSize h0 hndvd).symm
  · intro hdvd
    rw [ceilGlobalSize_of_dvd numOfValues localWorkGroupSize h0 hdvd,
      succ_div_mul_of_dvd numOfValues localWorkGroupSize hdvd]

/-- Witness for C9 at `numOfValues = 100000`, `localWorkGroupSize = 256`. -/
theorem globalWorkItems_vs_ceiling_witness :
    (100000 < 2 ^ 32 ∧ 256 < 2 ^ 64 ∧ 0 < 256) ∧
    ∃ g, globalWorkItems 100000 256 = some g ∧
      (g = ceilGlobalSize 100000 256 ↔ ¬ 256 ∣ 100000) ∧
      (256 ∣ 100000 → g = ceilGlobalSize 100000 256 + 256) :=
  ⟨by decide, globalWorkItems_vs_ceiling 100000 256 (by decide) (by decide) (by decide)⟩

/-- C10. No wrap-around: for `numOfValues` below `2 ^ 32` and a non-zero
`localWorkGroupSize` below `2 ^ 64`, neither the sum nor the product of line 175
reaches `2 ^ 64`, the 64-bit evaluation returns the value over the naturals, and
that value reduced modulo `2 ^ 64` is still a multiple of `localWorkGroupSize`
and at least `numOfValues`. -/
theorem globalWorkItems_no_wrap (numOfValues localWorkGroupSize : Nat)
    (hn : numOfValues < 2 ^ 32) (hl : localWorkGroupSize < 2 ^ 64)
    (h0 : localWorkGroupSize ≠ 0) :
    numOfValues / localWorkGroupSize + 1 < 2 ^ 64 ∧
    (numOfValues / localWorkGroupSize + 1) * localWorkGroupSize < 2 ^ 64 ∧
    globalWorkItems numOfValues localWorkGroupSize =
      some ((numOfValues / localWorkGroupSize + 1) * localWorkGroupSize) ∧
    ((numOfValues / localWorkGroupSize + 1) * localWorkGroupSize % 2 ^ 64)
      % localWorkGroupSize = 0 ∧
    numOfValues ≤ (numOfValues / localWorkGroupSize + 1) * localWorkGroupSize % 2 ^ 64 := by
  have hpos : 0 < localWorkGroupSize := Nat.pos_of_ne_zero h0
  have hlt := succ_div_mul_lt numOfValues localWorkGroupSize hn hl hpos
  have hq : numOfValues / localWorkGroupSize ≤ numOfValues := Nat.div_le_self _ _
  refine ⟨by omega, hlt, globalWorkItems_eq numOfValues localWorkGroupSize hn hl hpos, ?_, ?_⟩
  · rw [Nat.mod_eq_of_lt hlt]
    exact Nat.mul_mod_left _ _
  · rw [Nat.mod_eq_of_lt hlt]
    exact Nat.le_of_lt (lt_succ_div_mul numOfValues localWorkGroupSize hpos)

/-- Witness for C10 at the largest `unsigned int` and the largest `size_t`. -/
theorem globalWorkItems_no_wrap_witness :
    (4294967295 < 2 ^ 32 ∧ 18446744073709551615 < 2 ^ 64 ∧ 18446744073709551615 ≠ 0) ∧
    (4294967295 / 18446744073709551615 + 1 < 2 ^ 64 ∧
    (4294967295 / 18446744073709551615 + 1) * 18446744073709551615 < 2 ^ 64 ∧
    globalWorkItems 4294967295 18446744073709551615 =
      some ((4294967295 / 18446744073709551615 + 1) * 18446744073709551615) ∧
    ((4294967295 / 18446744073709551615 + 1) * 18446744073709551615 % 2 ^ 64)
      % 18446744073709551615 = 0 ∧
    4294967295 ≤ (4294967295 / 18446744073709551615 + 1) * 18446744073709551615 % 2 ^ 64) :=
  ⟨by decide, globalWorkItems_no_wrap 4294967295 18446744073709551615 (by decide) (by decide)
    (by decide)⟩

/-! ## Device selection: the claims -/

/-- C3, counterexample. In `overflowDevices` every query succeeds, the exact
products are `2 ^ 32` and `1`, so device 0 alone has the greatest exact product;
the loop ends with `id = 1` and the handle of device 1, because it compares the
products modulo `2 ^ 32`, which are `0` and `1`. -/
theorem selectDevice_exact_product_counterexample :
    (∀ d ∈ overflowDevices, d.unitsStatus = CL_SUCCESS ∧ d.clockStatus = CL_SUCCESS ∧
      d.computeUnits < 2 ^ 32 ∧ d.clockFrequency < 2 ^ 32) ∧
    overflowDevices.map (fun d => d.computeUnits * d.clockFrequency) = [4294967296, 1] ∧
    overflowDevices.map score = [0, 1] ∧
    selectDevice overflowDevices =
      Run.ok { maxComputeUnits := 1, maxClockFrequency := 1, gpuId := some 101, id := 1 } := by
  decide

/-- C3, amended. When every query succeeds and the device at index `i` has a
score, computed as the program computes it (the product modulo `2 ^ 32`),
strictly greater than that of every other device, the loop ends with `id = i`
and `gpuId` the handle of that device. -/
theorem selectDevice_unique_best (devices : List Device) (i : Nat) (d : Device)
    (hq : ∀ e ∈ devices, e.unitsStatus = CL_SUCCESS ∧ e.clockStatus = CL_SUCCESS)
    (hi : devices[i]? = some d)
    (hbest : ∀ j e, devices[j]? = some e → j ≠ i → score e < score d) :
    ∃ r, selectDevice devices = Run.ok r ∧ r.id = i ∧ r.gpuId = some d.handle := by
  have hne : devices ≠ [] := by
    intro h
    rw [h] at hi
    simp at hi
  obtain ⟨r, d2, hr, hget, hgpu, hmax, _⟩ := selectDevice_ok devices hne hq
  have hid : r.id = i := by
    by_contra hneq
    have h1 : score d2 < score d := hbest r.id d2 hget hneq
    have h2 : score d ≤ score d2 := hmax d (List.getElem?_mem hi)
    omega
  refine ⟨r, hr, hid, ?_⟩
  rw [hid, hi] at hget
  rw [hgpu, ← Option.some.inj hget]

/-- Witness for C3 (amended) at the specification example: scores 2000, 2400,
3000, index 2 selected. -/
theorem selectDevice_unique_best_witness :
    ∃ r, selectDevice threeDevices = Run.ok r ∧ r.id = 2 ∧ r.gpuId = some 102 :=
  selectDevice_unique_best threeDevices 2
    { handle := 102, unitsStatus := 0, computeUnits := 1, clockStatus := 0,
      clockFrequency := 3000 }
    (by decide) (by decide)
    (by
      intro j e hje hj
      match j, hje, hj with
      | 0, hje, _ => cases hje; decide
      | 1, hje, _ => cases hje; decide
      | 2, _, hj => exact absurd rfl hj
      | j + 3, hje, _ => simp [threeDevices] at hje)

/-- The device-list scenarios of the specification, evaluated. -/
theorem selectDevice_scenarios :
    threeDevices.map score = [2000, 2400, 3000] ∧
    selectDevice threeDevices =
      Run.ok { maxComputeUnits := 1, maxClockFrequency := 3000, gpuId := some 102, id := 2 } ∧
    selectDevice tiedDevices =
      Run.ok { maxComputeUnits := 2, maxClockFrequency := 1000, gpuId := some 100, id := 0 } := by
  decide

/-- C4. On a non-empty list whose queries all succeed the loop ends with `id`
the smallest index whose score (the product as the program computes it) is the
greatest score of the list, and `gpuId` the handle at that index: no device has
a greater score, every earlier device has a strictly smaller one, and when all
scores are 0 the index is 0. -/
theorem selectDevice_first_wins (devices : List Device) (hne : devices ≠ [])
    (hq : ∀ e ∈ devices, e.unitsStatus = CL_SUCCESS ∧ e.clockStatus = CL_SUCCESS) :
    ∃ r d, selectDevice devices = Run.ok r ∧ devices[r.id]? = some d ∧
      r.gpuId = some d.handle ∧
      (∀ e ∈ devices, score e ≤ score d) ∧
      (∀ j e, j < r.id → devices[j]? = some e → score e < score d) ∧
      ((∀ e ∈ devices, score e = 0) → r.id = 0) := by
  obtain ⟨r, d, hr, hget, hgpu, hmax, hfirst⟩ := selectDevice_ok devices hne hq
  refine ⟨r, d, hr, hget, hgpu, hmax, hfirst, ?_⟩
  intro hzero
  by_contra hpos
  cases devices with
  | nil => exact hne rfl
  | cons d0 rest =>
    have h1 : score d0 < score d :=
      hfirst 0 d0 (Nat.pos_of_ne_zero hpos) (by simp)
    have h2 : score d = 0 := hzero d (List.getElem?_mem hget)
    omega

/-- Witness for C4 at the tie example of the specification. -/
theorem selectDevice_first_wins_witness :
    tiedDevices ≠ [] ∧
    ∃ r d, selectDevice tiedDevices = Run.ok r ∧ tiedDevices[r.id]? = some d ∧
      r.gpuId = some d.handle ∧
      (∀ e ∈ tiedDevices, score e ≤ score d) ∧
      (∀ j e, j < r.id → tiedDevices[j]? = some e → score e < score d) ∧
      ((∀ e ∈ tiedDevices, score e = 0) → r.id = 0) :=
  ⟨by decide, selectDevice_first_wins tiedDevices (by decide) (by decide)⟩

/-- C5. On a non-empty list the loop ends the run with `EXIT_FAILURE` exactly
when some device has a compute-unit or clock-frequency query of non-success
status; when every query succeeds the loop completes with `id` below the number
of devices. -/
theorem selectDevice_failure_iff (devices : List Device) (hne : devices ≠ []) :
    (selectDevice devices = Run.exitFailure Message.clGetDeviceInfo ↔
      ∃ d ∈ devices, d.unitsStatus ≠ CL_SUCCESS ∨ d.clockStatus ≠ CL_SUCCESS) ∧
    ((∃ m, selectDevice devices = Run.exitFailure m) ↔
      ∃ d ∈ devices, d.unitsStatus ≠ CL_SUCCESS ∨ d.clockStatus ≠ CL_SUCCESS) ∧
    ((∀ d ∈ devices, d.unitsStatus = CL_SUCCESS ∧ d.clockStatus = CL_SUCCESS) →
      ∃ r, selectDevice devices = Run.ok r ∧ r.id < devices.length) := by
  have hiff := deviceLoop_exitFailure_iff devices 0 (initialSelection devices)
  have hok : (∀ d ∈ devices, d.unitsStatus = CL_SUCCESS ∧ d.clockStatus = CL_SUCCESS) →
      ∃ r, selectDevice devices = Run.ok r ∧ r.id < devices.length := by
    intro hq
    obtain ⟨r, d, hr, hget, _⟩ := selectDevice_ok devices hne hq
    refine ⟨r, hr, ?_⟩
    by_contra hge
    rw [List.getElem?_eq_none (Nat.le_of_not_lt hge)] at hget
    exact Option.noConfusion hget
  refine ⟨hiff, ⟨?_, fun h => ⟨_, hiff.mpr h⟩⟩, hok⟩
  rintro ⟨m, hm⟩
  by_contra hnone
  have hq : ∀ d ∈ devices, d.unitsStatus = CL_SUCCESS ∧ d.clockStatus = CL_SUCCESS := by
    intro d hd
    constructor
    · by_contra h; exact hnone ⟨d, hd, Or.inl h⟩
    · by_contra h; exact hnone ⟨d, hd, Or.inr h⟩
  obtain ⟨r, hr, _⟩ := hok hq
  rw [hr] at hm
  exact Run.noConfusion hm

/-- Witness for C5 at a one-device list whose clock query fails. -/
theorem selectDevice_failure_iff_witness :
    failingDevices ≠ [] ∧
    ((selectDevice failingDevices = Run.exitFailure Message.clGetDeviceInfo ↔
      ∃ d ∈ failingDevices, d.unitsStatus ≠ CL_SUCCESS ∨ d.clockStatus ≠ CL_SUCCESS) ∧
    ((∃ m, selectDevice failingDevices = Run.exitFailure m) ↔
      ∃ d ∈ failingDevices, d.unitsStatus ≠ CL_SUCCESS ∨ d.clockStatus ≠ CL_SUCCESS) ∧
    ((∀ d ∈ failingDevices, d.unitsStatus = CL_SUCCESS ∧ d.clockStatus = CL_SUCCESS) →
      ∃ r, selectDevice failingDevices = Run.ok r ∧ r.id < failingDevices.length)) :=
  ⟨by decide, selectDevice_failure_iff failingDevices (by decide)⟩

/-! ## Unchecked inputs and status accumulation: the claims -/

/-- C6, counterexample. With a successful work-group query that reports size 0,
planning does not end in `EXIT_FAILURE`: the status check passes and line 175
divides by zero.  The same holds for the whole run on `zeroGranularityRuntime`. -/
theorem planDispatch_zero_counterexample :
    zeroGranularityRuntime.localWorkGroupSize = 0 ∧
    planDispatch CL_SUCCESS NUM_OF_VALUES 0 = Run.undefined ∧
    planDispatch CL_SUCCESS NUM_OF_VALUES 0 ≠
      Run.exitFailure Message.clGetKernelWorkGroupInfo ∧
    main zeroGranularityRuntime = Run.undefined := by
  decide

/-- C6, amended. Planning ends the run with `EXIT_FAILURE` exactly when
`clGetKernelWorkGroupInfo` answers a non-success status, whatever size is
reported; after a successful query with a non-zero size it yields
`(numOfValues / localWorkGroupSize + 1) * localWorkGroupSize`. -/
theorem planDispatch_failure_iff (status : Int) (numOfValues localWorkGroupSize : Nat) :
    ((∃ m, planDispatch status numOfValues localWorkGroupSize = Run.exitFailure m) ↔
      status ≠ CL_SUCCESS) ∧
    (status ≠ CL_SUCCESS → planDispatch status numOfValues localWorkGroupSize =
      Run.exitFailure Message.clGetKernelWorkGroupInfo) ∧
    (status = CL_SUCCESS → numOfValues < 2 ^ 32 → localWorkGroupSize < 2 ^ 64 →
      0 < localWorkGroupSize →
      planDispatch status numOfValues localWorkGroupSize =
        Run.ok ((numOfValues / localWorkGroupSize + 1) * localWorkGroupSize)) := by
  refine ⟨⟨?_, fun h => ⟨_, by rw [planDispatch, if_pos h]⟩⟩,
    fun h => by rw [planDispatch, if_pos h], ?_⟩
  · rintro ⟨m, hm⟩ hs
    rw [planDispatch, if_neg (not_not.mpr hs)] at hm
    cases hg : globalWorkItems numOfValues localWorkGroupSize with
    | none => rw [hg] at hm; exact Run.noConfusion hm
    | some g => rw [hg] at hm; exact Run.noConfusion hm
  · intro hs hn hl h0
    rw [planDispatch, if_neg (not_not.mpr hs),
      globalWorkItems_eq numOfValues localWorkGroupSize hn hl h0]

/-- Witness for C6 (amended) at a successful query reporting size 256. -/
theorem planDispatch_failure_iff_witness :
    planDispatch CL_SUCCESS NUM_OF_VALUES 256 = Run.ok ((NUM_OF_VALUES / 256 + 1) * 256) :=
  (planDispatch_failure_iff CL_SUCCESS NUM_OF_VALUES 256).2.2 rfl (by decide) (by decide)
    (by decide)

/-- C7, counterexample. With no device the loop body never runs and selection
completes with `id = 0` and the value read from `clDevices[0]`; on
`noDeviceRuntime` the run goes on to launch the kernel and returns 0. -/
theorem selectDevice_nil_counterexample :
    noDeviceRuntime.clDevices.length = 0 ∧
    selectDevice [] =
      Run.ok { maxComputeUnits := 0, maxClockFrequency := 0, gpuId := none, id := 0 } ∧
    main noDeviceRuntime =
      Run.ok { id := 0, gpuId := none, localWorkGroupSize := 256, globalWorkItems := 100096 } := by
  decide

/-- C7, amended. When the device list is empty, selection does not fail: it
completes with `id = 0` and the value read from `clDevices[0]` before the loop,
the run never ends with the `clGetDeviceInfo` failure, and once the three
context calls have succeeded `main` continues with those defaults. -/
theorem main_no_devices (rt : Runtime) (hnil : rt.clDevices = []) :
    selectDevice rt.clDevices =
      Run.ok { maxComputeUnits := 0, maxClockFrequency := 0, gpuId := none, id := 0 } ∧
    main rt ≠ Run.exitFailure Message.clGetDeviceInfo ∧
    (rt.createContext = CL_SUCCESS → rt.devicesSize = CL_SUCCESS →
      rt.devicesFill = CL_SUCCESS →
      main rt = mainAfterSelection rt
        { maxComputeUnits := 0, maxClockFrequency := 0, gpuId := none, id := 0 }) := by
  have hsel : selectDevice rt.clDevices =
      Run.ok { maxComputeUnits := 0, maxClockFrequency := 0, gpuId := none, id := 0 } := by
    rw [hnil]; rfl
  have hcont : rt.createContext = CL_SUCCESS → rt.devicesSize = CL_SUCCESS →
      rt.devicesFill = CL_SUCCESS →
      main rt = mainAfterSelection rt
        { maxComputeUnits := 0, maxClockFrequency := 0, gpuId := none, id := 0 } := by
    intro h1 h2 h3
    rw [main, if_neg (not_not.mpr h1), if_neg (not_not.mpr h2), if_neg (not_not.mpr h3), hsel]
  refine ⟨hsel, ?_, hcont⟩
  intro hmain
  by_cases h1 : rt.createContext = CL_SUCCESS
  · by_cases h2 : rt.devicesSize = CL_SUCCESS
    · by_cases h3 : rt.devicesFill = CL_SUCCESS
      · rw [hcont h1 h2 h3] at hmain
        exact mainAfterSelection_ne_deviceInfo rt _ hmain
      · rw [main, if_neg (not_not.mpr h1), if_neg (not_not.mpr h2), if_pos h3] at hmain
        cases hmain
    · rw [main, if_neg (not_not.mpr h1), if_pos h2] at hmain
      cases hmain
  · rw [main, if_pos h1] at hmain
    cases hmain

/-- Witness for C7 (amended) on `noDeviceRuntime`. -/
theorem main_no_devices_witness :
    selectDevice noDeviceRuntime.clDevices =
      Run.ok { maxComputeUnits := 0, maxClockFrequency := 0, gpuId := none, id := 0 } ∧
    main noDeviceRuntime ≠ Run.exitFailure Message.clGetDeviceInfo ∧
    (noDeviceRuntime.createContext = CL_SUCCESS → noDeviceRuntime.devicesSize = CL_SUCCESS →
      noDeviceRuntime.devicesFill = CL_SUCCESS →
      main noDeviceRuntime = mainAfterSelection noDeviceRuntime
        { maxComputeUnits := 0, maxClockFrequency := 0, gpuId := none, id := 0 }) :=
  main_no_devices noDeviceRuntime rfl

/-- Any one successful `clSetKernelArg` clears the accumulated status: the four
statuses are combined with `&=`, and `x & 0 = 0`. -/
theorem setKernelArgs_of_success (s0 s1 s2 s3 : Int)
    (h : s0 = CL_SUCCESS ∨ s1 = CL_SUCCESS ∨ s2 = CL_SUCCESS ∨ s3 = CL_SUCCESS) :
    setKernelArgs s0 s1 s2 s3 = CL_SUCCESS := by
  unfold setKernelArgs CL_SUCCESS at *
  rcases h with rfl | rfl | rfl | rfl <;>
    simp only [int_land_zero, int_zero_land]

/-- C8, the code at the failing input. The first `clSetKernelArg` answers
`CL_INVALID_MEM_OBJECT` (-38) and the other three succeed: the status tested at
line 157 is `CL_SUCCESS`, and the run of `maskedArgRuntime` does not abort but
launches the kernel and returns 0. -/
theorem setKernelArgs_masks_failure :
    maskedArgRuntime.setArg0 ≠ CL_SUCCESS ∧
    setKernelArgs (-38) 0 0 0 = CL_SUCCESS ∧
    main maskedArgRuntime =
      Run.ok { id := 2, gpuId := some 102, localWorkGroupSize := 256,
               globalWorkItems := 100096 } := by
  have hargs : setKernelArgs (-38) 0 0 0 = CL_SUCCESS :=
    setKernelArgs_of_success (-38) 0 0 0 (Or.inr (Or.inl rfl))
  refine ⟨by decide, hargs, ?_⟩
  have hsel : selectDevice maskedArgRuntime.clDevices =
      Run.ok { maxComputeUnits := 1, maxClockFrequency := 3000, gpuId := some 102, id := 2 } := by
    decide
  have hplan : planDispatch maskedArgRuntime.workGroupInfo NUM_OF_VALUES
      maskedArgRuntime.localWorkGroupSize = Run.ok 100096 := by
    decide
  have hargs2 : setKernelArgs maskedArgRuntime.setArg0 maskedArgRuntime.setArg1
      maskedArgRuntime.setArg2 maskedArgRuntime.setArg3 = CL_SUCCESS := hargs
  rw [main, if_neg (by decide), if_neg (by decide), if_neg (by decide), hsel]
  show mainAfterSelection maskedArgRuntime _ = _
  rw [mainAfterSelection, if_neg (by decide), if_neg (by decide), if_neg (by decide),
    if_neg (by decide), if_neg (by decide), if_neg (not_not.mpr hargs2), hplan]
  decide

end VectorAdditionOpenCL
